import Mathlib

/-!
Shallow embedding of the torpedo k8s scheduler driver
(`drivers/scheduler/k8s/k8s.go`) and the parts of its collaborators that
the driver's control flow depends on.

Modelling conventions:
* A Go resource object (`*storage_v1beta1.StorageClass`,
  `*v1.PersistentVolumeClaim`, `*v1beta1.Deployment`, or anything else) is a
  tagged value `ResourceObject`; the driver only dispatches on the tag and
  reads `obj.Name`, so each tag carries the name (the catch-all tag carries a
  description standing for the `%#v` rendering).
* The `k8sutils` package (the Cluster API Client of the spec) is external to
  the driver; it is modelled as a record `K8sUtils` of arbitrary response
  functions, keyed by the object name the driver would pass.
* Every cluster call the driver issues is recorded in a trace of `Op` values,
  returned alongside the Go results, so that ordering and fail-fast claims
  are statable.
* Go's `(xs, err)` multiple returns are mirrored as pairs with
  `Option SchedError`; a Go `nil` slice result is the empty list.
-/

namespace Torpedo

/-- A backend resource object, dispatched on by kind as in the Go type
switches; `other` stands for any value of a type none of the cases match. -/
inductive ResourceObject where
  | storageClass (name : String)
  | persistentVolumeClaim (name : String)
  | deployment (name : String)
  | other (descr : String)
  deriving DecidableEq, Repr

/-- Models the `%#v` rendering of an object in the unsupported-component
error messages. -/
def ResourceObject.describe : ResourceObject → String
  | ResourceObject.storageClass n => "StorageClass(" ++ n ++ ")"
  | ResourceObject.persistentVolumeClaim n => "PersistentVolumeClaim(" ++ n ++ ")"
  | ResourceObject.deployment n => "Deployment(" ++ n ++ ")"
  | ResourceObject.other d => d

/-- An application template: `Storage`/`Core` are the pure functions of the
instance ID exposed by `spec.AppSpec`. -/
structure AppSpec where
  Key : String
  Storage : String → List ResourceObject
  Core : String → List ResourceObject

/-- `scheduler.Context`: UID is the instance ID, App the owning spec. -/
structure Context where
  UID : String
  App : AppSpec

/-- `scheduler.ScheduleOptions`; a Go `nil` slice is the empty list (the Go
guard `AppKeys != nil && len(AppKeys) > 0` is exactly nonemptiness). -/
structure ScheduleOptions where
  AppKeys : List String

/-- The typed, app-scoped errors of the driver (defined in the repository's
k8s package next to the driver; modelled from the spec error taxonomy: each
carries the owning AppSpec and a cause string, `unknownAppKind` carries the
unresolved key). -/
inductive SchedError where
  | unknownAppKind (key : String)
  | failedToScheduleApp (App : AppSpec) (Cause : String)
  | failedToValidateApp (App : AppSpec) (Cause : String)
  | failedToDestroyApp (App : AppSpec) (Cause : String)
  | failedToValidateAppDestroy (App : AppSpec) (Cause : String)
  | failedToGetVolumesForApp (App : AppSpec) (Cause : String)
  | failedToGetVolumesParameters (App : AppSpec) (Cause : String)
  | failedToValidateStorage (App : AppSpec) (Cause : String)
  | failedToDestroyStorage (App : AppSpec) (Cause : String)

/-- Node address types used by `Init` (`v1.NodeExternalIP`,
`v1.NodeInternalIP`, and the hostname kind the filter drops). -/
inductive NodeAddressType where
  | externalIP
  | internalIP
  | hostname
  deriving DecidableEq, Repr

/-- One entry of `n.Status.Addresses`. -/
structure NodeAddress where
  Type' : NodeAddressType
  Address : String
  deriving DecidableEq, Repr

/-- The part of a cluster node item that `Init` reads. -/
structure K8sNodeItem where
  Name : String
  Addresses : List NodeAddress
  deriving DecidableEq, Repr

/-- `scheduler.NodeType`. -/
inductive NodeType where
  | master
  | worker
  deriving DecidableEq, Repr

/-- `scheduler.Node` as filled in by `Init`. -/
structure Node where
  Name : String
  Addresses : List String
  Type' : NodeType
  deriving DecidableEq, Repr

/-- The driver's own state: the node snapshot `k.nodes`. -/
structure K8sState where
  nodes : List Node
  deriving DecidableEq, Repr

/-- One cluster call issued by the driver; the trace of these models the
sequence of `k8sutils` invocations. -/
inductive Op where
  | createStorageClass (name : String)
  | createPersistentVolumeClaim (name : String)
  | createDeployment (name : String)
  | validateDeployement (name : String)
  | deleteDeployment (name : String)
  | validateTerminatedDeployment (name : String)
  | getVolumeForPersistentVolumeClaim (name : String)
  | getPersistentVolumeClaimParams (name : String)
  | validateStorageClass (name : String)
  | validatePersistentVolumeClaim (name : String)
  | deleteStorageClass (name : String)
  | deletePersistentVolumeClaim (name : String)
  deriving DecidableEq, Repr

/-- True for the ops that tear a resource down; `Schedule` never issues one
(no rollback). -/
def Op.isTeardown : Op → Bool
  | Op.deleteDeployment _ => true
  | Op.deleteStorageClass _ => true
  | Op.deletePersistentVolumeClaim _ => true
  | _ => false

/-- The Cluster API Client (`k8sutils`), abstracted as arbitrary responses
keyed by the name of the object the driver passes. -/
structure K8sUtils where
  GetNodes : Except String (List K8sNodeItem)
  IsNodeMaster : K8sNodeItem → Bool
  CreateStorageClass : String → Except String Unit
  CreatePersistentVolumeClaim : String → Except String Unit
  CreateDeployment : String → Except String Unit
  ValidateDeployement : String → Except String Unit
  DeleteDeployment : String → Except String Unit
  ValidateTerminatedDeployment : String → Except String Unit
  GetVolumeForPersistentVolumeClaim : String → Except String String
  GetPersistentVolumeClaimParams : String → Except String (List (String × String))
  ValidateStorageClass : String → Except String Unit
  ValidatePersistentVolumeClaim : String → Except String Unit
  DeleteStorageClass : String → Except String Unit
  DeletePersistentVolumeClaim : String → Except String Unit

/-- Modelled from the spec: the App Spec Factory registry (package
`spec/factory`, not part of the sources at hand) is a key-to-spec map in
registration order; `Get` fails with `UnknownAppKind` if the key is absent. -/
def factoryGet (reg : List (String × AppSpec)) (key : String) :
    Except SchedError AppSpec :=
  match reg.find? (fun p => p.1 == key) with
  | some p => Except.ok p.2
  | none => Except.error (SchedError.unknownAppKind key)

/-- Modelled from the spec: `factory.GetAll` returns every registered spec in
registration order. -/
def factoryGetAll (reg : List (String × AppSpec)) : List AppSpec :=
  reg.map Prod.snd

/-- The storage loop of `Schedule`: create each storage class or PVC,
fail-fast wrapping the cause in `ErrFailedToScheduleApp`; any other kind is
an unsupported storage component. -/
def scheduleStorageObjs (cl : K8sUtils) (app : AppSpec) :
    List ResourceObject → List Op × Option SchedError
  | [] => ([], none)
  | ResourceObject.storageClass n :: rest =>
    match cl.CreateStorageClass n with
    | Except.error e =>
      ([Op.createStorageClass n],
        some (SchedError.failedToScheduleApp app
          ("Failed to create storage class: " ++ n ++ ". Err: " ++ e)))
    | Except.ok _ =>
      let r := scheduleStorageObjs cl app rest
      (Op.createStorageClass n :: r.1, r.2)
  | ResourceObject.persistentVolumeClaim n :: rest =>
    match cl.CreatePersistentVolumeClaim n with
    | Except.error e =>
      ([Op.createPersistentVolumeClaim n],
        some (SchedError.failedToScheduleApp app
          ("Failed to create PVC: " ++ n ++ ". Err: " ++ e)))
    | Except.ok _ =>
      let r := scheduleStorageObjs cl app rest
      (Op.createPersistentVolumeClaim n :: r.1, r.2)
  | obj :: _ =>
    ([], some (SchedError.failedToScheduleApp app
      ("Failed to create unsupported storage component: "
        ++ obj.describe ++ ".")))

/-- The core loop of `Schedule`: create each deployment, fail-fast; any
other kind is an unsupported core component. -/
def scheduleCoreObjs (cl : K8sUtils) (app : AppSpec) :
    List ResourceObject → List Op × Option SchedError
  | [] => ([], none)
  | ResourceObject.deployment n :: rest =>
    match cl.CreateDeployment n with
    | Except.error e =>
      ([Op.createDeployment n],
        some (SchedError.failedToScheduleApp app
          ("Failed to create Deployment: " ++ n ++ ". Err: " ++ e)))
    | Except.ok _ =>
      let r := scheduleCoreObjs cl app rest
      (Op.createDeployment n :: r.1, r.2)
  | obj :: _ =>
    ([], some (SchedError.failedToScheduleApp app
      ("Failed to create unsupported core component: "
        ++ obj.describe ++ ".")))

/-- One iteration of `Schedule`'s spec loop: all storage objects, then all
core objects of the spec, fail-fast. -/
def scheduleOneSpec (cl : K8sUtils) (instanceID : String) (app : AppSpec) :
    List Op × Option SchedError :=
  let s := scheduleStorageObjs cl app (app.Storage instanceID)
  match s.2 with
  | some e => (s.1, some e)
  | none =>
    let c := scheduleCoreObjs cl app (app.Core instanceID)
    (s.1 ++ c.1, c.2)

/-- The spec loop of `Schedule`: on any failure the Go code returns
`nil, err` at once, so the context list is empty whenever the error is set;
on success one Context per spec is appended in order. -/
def scheduleSpecs (cl : K8sUtils) (instanceID : String) :
    List AppSpec → List Op × List Context × Option SchedError
  | [] => ([], [], none)
  | app :: rest =>
    let r := scheduleOneSpec cl instanceID app
    match r.2 with
    | some e => (r.1, [], some e)
    | none =>
      let t := scheduleSpecs cl instanceID rest
      match t.2.2 with
      | some e => (r.1 ++ t.1, [], some e)
      | none =>
        (r.1 ++ t.1, { UID := instanceID, App := app } :: t.2.1, none)

/-- Spec resolution at the top of `Schedule`: nonempty `AppKeys` are resolved
one by one through `factory.Get` (first failure propagated, `nil` specs);
empty means `factory.GetAll`. -/
def resolveAppKeys (reg : List (String × AppSpec)) :
    List String → List AppSpec × Option SchedError
  | [] => ([], none)
  | key :: rest =>
    match factoryGet reg key with
    | Except.error e => ([], some e)
    | Except.ok sp =>
      let r := resolveAppKeys reg rest
      match r.2 with
      | some e => ([], some e)
      | none => (sp :: r.1, none)

/-- The resolution branch of `Schedule` (`if options.AppKeys != nil &&
len(options.AppKeys) > 0`). -/
def resolveSpecs (reg : List (String × AppSpec)) (options : ScheduleOptions) :
    List AppSpec × Option SchedError :=
  if options.AppKeys.isEmpty then (factoryGetAll reg, none)
  else resolveAppKeys reg options.AppKeys

/-- `(*k8s).Schedule`: resolve specs, then materialize each spec's storage
and core resources; returns the issued-call trace alongside the Go results. -/
def Schedule (cl : K8sUtils) (reg : List (String × AppSpec))
    (instanceID : String) (options : ScheduleOptions) :
    List Op × List Context × Option SchedError :=
  match resolveSpecs reg options with
  | (_, some e) => ([], [], some e)
  | (specs, none) => scheduleSpecs cl instanceID specs

/-- `(*k8s).WaitForRunning`, inner loop over `ctx.App.Core(ctx.UID)`:
validate each deployment, fail-fast with `ErrFailedToValidateApp`;
non-deployments are unsupported core components. -/
def waitForRunningObjs (cl : K8sUtils) (app : AppSpec) :
    List ResourceObject → List Op × Option SchedError
  | [] => ([], none)
  | ResourceObject.deployment n :: rest =>
    match cl.ValidateDeployement n with
    | Except.error e =>
      ([Op.validateDeployement n],
        some (SchedError.failedToValidateApp app
          ("Failed to validate Deployment: " ++ n ++ ". Err: " ++ e)))
    | Except.ok _ =>
      let r := waitForRunningObjs cl app rest
      (Op.validateDeployement n :: r.1, r.2)
  | obj :: _ =>
    ([], some (SchedError.failedToValidateApp app
      ("Failed to validate unsupported core component: "
        ++ obj.describe ++ ".")))

/-- `(*k8s).WaitForRunning`. -/
def WaitForRunning (cl : K8sUtils) (ctx : Context) :
    List Op × Option SchedError :=
  waitForRunningObjs cl ctx.App (ctx.App.Core ctx.UID)

/-- `(*k8s).Destroy`, inner loop: delete each deployment, fail-fast with
`ErrFailedToDestroyApp`. -/
def destroyObjs (cl : K8sUtils) (app : AppSpec) :
    List ResourceObject → List Op × Option SchedError
  | [] => ([], none)
  | ResourceObject.deployment n :: rest =>
    match cl.DeleteDeployment n with
    | Except.error e =>
      ([Op.deleteDeployment n],
        some (SchedError.failedToDestroyApp app
          ("Failed to destroy Deployment: " ++ n ++ ". Err: " ++ e)))
    | Except.ok _ =>
      let r := destroyObjs cl app rest
      (Op.deleteDeployment n :: r.1, r.2)
  | obj :: _ =>
    ([], some (SchedError.failedToDestroyApp app
      ("Failed to destroy unsupported core component: "
        ++ obj.describe ++ ".")))

/-- `(*k8s).Destroy`. -/
def Destroy (cl : K8sUtils) (ctx : Context) : List Op × Option SchedError :=
  destroyObjs cl ctx.App (ctx.App.Core ctx.UID)

/-- `(*k8s).WaitForDestroy`, inner loop: validate termination of each
deployment, fail-fast with `ErrFailedToValidateAppDestroy` (the misspelt
cause string "destory" is the source's). -/
def waitForDestroyObjs (cl : K8sUtils) (app : AppSpec) :
    List ResourceObject → List Op × Option SchedError
  | [] => ([], none)
  | ResourceObject.deployment n :: rest =>
    match cl.ValidateTerminatedDeployment n with
    | Except.error e =>
      ([Op.validateTerminatedDeployment n],
        some (SchedError.failedToValidateAppDestroy app
          ("Failed to validate destroy of deployment: " ++ n ++ ". Err: " ++ e)))
    | Except.ok _ =>
      let r := waitForDestroyObjs cl app rest
      (Op.validateTerminatedDeployment n :: r.1, r.2)
  | obj :: _ =>
    ([], some (SchedError.failedToValidateAppDestroy app
      ("Failed to validate destory of unsupported core component: "
        ++ obj.describe ++ ".")))

/-- `(*k8s).WaitForDestroy`. -/
def WaitForDestroy (cl : K8sUtils) (ctx : Context) :
    List Op × Option SchedError :=
  waitForDestroyObjs cl ctx.App (ctx.App.Core ctx.UID)

/-- `(*k8s).GetVolumes`, inner loop over `ctx.App.Storage(ctx.UID)`: only
PVCs are looked up (any other kind is passed over without any call or
error); a lookup failure returns `nil` volumes and
`ErrFailedToGetVolumesForApp`. -/
def getVolumesObjs (cl : K8sUtils) (app : AppSpec) :
    List ResourceObject → List Op × List String × Option SchedError
  | [] => ([], [], none)
  | ResourceObject.persistentVolumeClaim n :: rest =>
    match cl.GetVolumeForPersistentVolumeClaim n with
    | Except.error e =>
      ([Op.getVolumeForPersistentVolumeClaim n], [],
        some (SchedError.failedToGetVolumesForApp app
          ("Failed to get volume for PVC: " ++ n ++ ". Err: " ++ e)))
    | Except.ok vol =>
      let r := getVolumesObjs cl app rest
      match r.2.2 with
      | some e => (Op.getVolumeForPersistentVolumeClaim n :: r.1, [], some e)
      | none =>
        (Op.getVolumeForPersistentVolumeClaim n :: r.1, vol :: r.2.1, none)
  | _ :: rest => getVolumesObjs cl app rest

/-- `(*k8s).GetVolumes`. -/
def GetVolumes (cl : K8sUtils) (ctx : Context) :
    List Op × List String × Option SchedError :=
  getVolumesObjs cl ctx.App (ctx.App.Storage ctx.UID)

/-- `(*k8s).GetVolumeParameters`, inner loop: only PVCs are processed (any
other kind is passed over); the Go result map is modelled as the sequence of
its insertions. -/
def getVolumeParametersObjs (cl : K8sUtils) (app : AppSpec) :
    List ResourceObject →
      List Op × List (String × List (String × String)) × Option SchedError
  | [] => ([], [], none)
  | ResourceObject.persistentVolumeClaim n :: rest =>
    match cl.GetVolumeForPersistentVolumeClaim n with
    | Except.error e =>
      ([Op.getVolumeForPersistentVolumeClaim n], [],
        some (SchedError.failedToGetVolumesParameters app
          ("failed to get volume for PVC: " ++ n ++ ". Err: " ++ e)))
    | Except.ok vol =>
      match cl.GetPersistentVolumeClaimParams n with
      | Except.error e =>
        ([Op.getVolumeForPersistentVolumeClaim n,
          Op.getPersistentVolumeClaimParams n], [],
          some (SchedError.failedToGetVolumesParameters app
            ("failed to get params for volume: " ++ n ++ ". Err: " ++ e)))
      | Except.ok params =>
        let r := getVolumeParametersObjs cl app rest
        match r.2.2 with
        | some e =>
          (Op.getVolumeForPersistentVolumeClaim n ::
            Op.getPersistentVolumeClaimParams n :: r.1, [], some e)
        | none =>
          (Op.getVolumeForPersistentVolumeClaim n ::
            Op.getPersistentVolumeClaimParams n :: r.1,
            (vol, params) :: r.2.1, none)
  | _ :: rest => getVolumeParametersObjs cl app rest

/-- `(*k8s).GetVolumeParameters`. -/
def GetVolumeParameters (cl : K8sUtils) (ctx : Context) :
    List Op × List (String × List (String × String)) × Option SchedError :=
  getVolumeParametersObjs cl ctx.App (ctx.App.Storage ctx.UID)

/-- `(*k8s).InspectVolumes`, inner loop: validate each storage class or PVC,
fail-fast with `ErrFailedToValidateStorage`; other kinds are unsupported. -/
def inspectVolumesObjs (cl : K8sUtils) (app : AppSpec) :
    List ResourceObject → List Op × Option SchedError
  | [] => ([], none)
  | ResourceObject.storageClass n :: rest =>
    match cl.ValidateStorageClass n with
    | Except.error e =>
      ([Op.validateStorageClass n],
        some (SchedError.failedToValidateStorage app
          ("Failed to validate StorageClass: " ++ n ++ ". Err: " ++ e)))
    | Except.ok _ =>
      let r := inspectVolumesObjs cl app rest
      (Op.validateStorageClass n :: r.1, r.2)
  | ResourceObject.persistentVolumeClaim n :: rest =>
    match cl.ValidatePersistentVolumeClaim n with
    | Except.error e =>
      ([Op.validatePersistentVolumeClaim n],
        some (SchedError.failedToValidateStorage app
          ("Failed to validate PVC: " ++ n ++ ". Err: " ++ e)))
    | Except.ok _ =>
      let r := inspectVolumesObjs cl app rest
      (Op.validatePersistentVolumeClaim n :: r.1, r.2)
  | obj :: _ =>
    ([], some (SchedError.failedToValidateStorage app
      ("Failed to validate unsupported storage component: "
        ++ obj.describe ++ ".")))

/-- `(*k8s).InspectVolumes`. -/
def InspectVolumes (cl : K8sUtils) (ctx : Context) :
    List Op × Option SchedError :=
  inspectVolumesObjs cl ctx.App (ctx.App.Storage ctx.UID)

/-- `(*k8s).DeleteVolumes`, inner loop: delete each storage class or PVC,
fail-fast with `ErrFailedToDestroyStorage`; other kinds are unsupported. -/
def deleteVolumesObjs (cl : K8sUtils) (app : AppSpec) :
    List ResourceObject → List Op × Option SchedError
  | [] => ([], none)
  | ResourceObject.storageClass n :: rest =>
    match cl.DeleteStorageClass n with
    | Except.error e =>
      ([Op.deleteStorageClass n],
        some (SchedError.failedToDestroyStorage app
          ("Failed to destroy storage class: " ++ n ++ ". Err: " ++ e)))
    | Except.ok _ =>
      let r := deleteVolumesObjs cl app rest
      (Op.deleteStorageClass n :: r.1, r.2)
  | ResourceObject.persistentVolumeClaim n :: rest =>
    match cl.DeletePersistentVolumeClaim n with
    | Except.error e =>
      ([Op.deletePersistentVolumeClaim n],
        some (SchedError.failedToDestroyStorage app
          ("Failed to destroy PVC: " ++ n ++ ". Err: " ++ e)))
    | Except.ok _ =>
      let r := deleteVolumesObjs cl app rest
      (Op.deletePersistentVolumeClaim n :: r.1, r.2)
  | obj :: _ =>
    ([], some (SchedError.failedToDestroyStorage app
      ("Failed to destroy unsupported storage component: "
        ++ obj.describe ++ ".")))

/-- `(*k8s).DeleteVolumes`. -/
def DeleteVolumes (cl : K8sUtils) (ctx : Context) :
    List Op × Option SchedError :=
  deleteVolumesObjs cl ctx.App (ctx.App.Storage ctx.UID)

/-- The address loop of `Init`: keep external and internal IPs, in the
reported order, dropping every other address type. -/
def collectAddrs : List NodeAddress → List String
  | [] => []
  | a :: rest =>
    if a.Type' = NodeAddressType.externalIP ∨
        a.Type' = NodeAddressType.internalIP then
      a.Address :: collectAddrs rest
    else
      collectAddrs rest

/-- The body of `Init`'s node loop for one listed item: filtered addresses
and the Master/Worker classification by the `IsNodeMaster` predicate. -/
def nodeFromItem (cl : K8sUtils) (n : K8sNodeItem) : Node :=
  { Name := n.Name
    Addresses := collectAddrs n.Addresses
    Type' := if cl.IsNodeMaster n then NodeType.master else NodeType.worker }

/-- `(*k8s).Init`: returns the propagated client error leaving `k.nodes`
untouched when listing fails; otherwise appends one Node per listed item. -/
def Init (cl : K8sUtils) (k : K8sState) : K8sState × Option String :=
  match cl.GetNodes with
  | Except.error e => (k, some e)
  | Except.ok items =>
    ({ nodes := k.nodes ++ items.map (nodeFromItem cl) }, none)

/-- The calls the storage loop of `Schedule` would issue were every create
to succeed; it breaks off at an unsupported kind exactly as the loop does. -/
def storageIdealOps : List ResourceObject → List Op
  | ResourceObject.storageClass n :: rest =>
    Op.createStorageClass n :: storageIdealOps rest
  | ResourceObject.persistentVolumeClaim n :: rest =>
    Op.createPersistentVolumeClaim n :: storageIdealOps rest
  | _ => []

/-- The calls the core loop of `Schedule` would issue were every create to
succeed. -/
def coreIdealOps : List ResourceObject → List Op
  | ResourceObject.deployment n :: rest =>
    Op.createDeployment n :: coreIdealOps rest
  | _ => []

/-- Full-success call sequence of one spec: all storage creates, then all
core creates. -/
def specIdealOps (instanceID : String) (app : AppSpec) : List Op :=
  storageIdealOps (app.Storage instanceID) ++ coreIdealOps (app.Core instanceID)

/-- Full-success call sequence of a whole `Schedule` batch, spec by spec. -/
def batchIdealOps (instanceID : String) : List AppSpec → List Op
  | [] => []
  | app :: rest => specIdealOps instanceID app ++ batchIdealOps instanceID rest

/-- A storage object whose create succeeds against `cl` (unsupported kinds
never succeed). -/
def storageCreateOk (cl : K8sUtils) : ResourceObject → Prop
  | ResourceObject.storageClass n => cl.CreateStorageClass n = Except.ok ()
  | ResourceObject.persistentVolumeClaim n =>
    cl.CreatePersistentVolumeClaim n = Except.ok ()
  | _ => False

/-- A core object whose create succeeds against `cl`. -/
def coreCreateOk (cl : K8sUtils) : ResourceObject → Prop
  | ResourceObject.deployment n => cl.CreateDeployment n = Except.ok ()
  | _ => False

/-- Every resource of the spec materializes successfully against `cl`. -/
def specOk (cl : K8sUtils) (instanceID : String) (app : AppSpec) : Prop :=
  (∀ o ∈ app.Storage instanceID, storageCreateOk cl o) ∧
    (∀ o ∈ app.Core instanceID, coreCreateOk cl o)

/-- A core object whose readiness validation succeeds against `cl`. -/
def validateOk (cl : K8sUtils) : ResourceObject → Prop
  | ResourceObject.deployment n => cl.ValidateDeployement n = Except.ok ()
  | _ => False

/-- A core object whose teardown succeeds against `cl`. -/
def teardownOk (cl : K8sUtils) : ResourceObject → Prop
  | ResourceObject.deployment n => cl.DeleteDeployment n = Except.ok ()
  | _ => False

/-- The validation calls `WaitForRunning` issues on an all-deployment list. -/
def validateIdealOps : List ResourceObject → List Op
  | ResourceObject.deployment n :: rest =>
    Op.validateDeployement n :: validateIdealOps rest
  | _ => []

/-- The delete calls `Destroy` issues on an all-deployment list. -/
def teardownIdealOps : List ResourceObject → List Op
  | ResourceObject.deployment n :: rest =>
    Op.deleteDeployment n :: teardownIdealOps rest
  | _ => []

/-- The lookup calls `GetVolumes` issues: one per PVC, others skipped. -/
def volumeIdealOps : List ResourceObject → List Op
  | [] => []
  | ResourceObject.persistentVolumeClaim n :: rest =>
    Op.getVolumeForPersistentVolumeClaim n :: volumeIdealOps rest
  | _ :: rest => volumeIdealOps rest

/-- The backend volume of one storage object, when it is a PVC whose lookup
succeeds. -/
def volOf (cl : K8sUtils) : ResourceObject → Option String
  | ResourceObject.persistentVolumeClaim n =>
    (cl.GetVolumeForPersistentVolumeClaim n).toOption
  | _ => none

/-- The kinds the storage dispatch of `Schedule`, `InspectVolumes` and
`DeleteVolumes` has a case for. -/
def storageKindSupported : ResourceObject → Prop
  | ResourceObject.storageClass _ => True
  | ResourceObject.persistentVolumeClaim _ => True
  | _ => False

/-- The kinds the core dispatch of `Schedule`, `WaitForRunning`, `Destroy`
and `WaitForDestroy` has a case for. -/
def coreKindSupported : ResourceObject → Prop
  | ResourceObject.deployment _ => True
  | _ => False

/-- Every PVC in scope resolves to some backend volume against `cl`
(vacuous for non-PVC objects, which `GetVolumes` passes over). -/
def pvcLookupOk (cl : K8sUtils) (o : ResourceObject) : Prop :=
  ∀ n, o = ResourceObject.persistentVolumeClaim n →
    ∃ v, cl.GetVolumeForPersistentVolumeClaim n = Except.ok v

/-! Concrete fixtures: a cluster client against which every call succeeds,
clients failing in one call each, and small application specs. -/

/-- A client against which every cluster call succeeds. -/
def clOk : K8sUtils where
  GetNodes := Except.ok []
  IsNodeMaster := fun _ => false
  CreateStorageClass := fun _ => Except.ok ()
  CreatePersistentVolumeClaim := fun _ => Except.ok ()
  CreateDeployment := fun _ => Except.ok ()
  ValidateDeployement := fun _ => Except.ok ()
  DeleteDeployment := fun _ => Except.ok ()
  ValidateTerminatedDeployment := fun _ => Except.ok ()
  GetVolumeForPersistentVolumeClaim := fun n => Except.ok ("vol-" ++ n)
  GetPersistentVolumeClaimParams := fun _ => Except.ok []
  ValidateStorageClass := fun _ => Except.ok ()
  ValidatePersistentVolumeClaim := fun _ => Except.ok ()
  DeleteStorageClass := fun _ => Except.ok ()
  DeletePersistentVolumeClaim := fun _ => Except.ok ()

/-- A spec with one storage class, one PVC and one deployment. -/
def specW : AppSpec where
  Key := "postgres"
  Storage := fun _ => [ResourceObject.storageClass "scW",
    ResourceObject.persistentVolumeClaim "pvcW"]
  Core := fun _ => [ResourceObject.deployment "depW"]

/-- A one-spec registry. -/
def regW : List (String × AppSpec) := [("postgres", specW)]

/-- A spec with one PVC and one deployment. -/
def specA : AppSpec where
  Key := "a"
  Storage := fun _ => [ResourceObject.persistentVolumeClaim "p1"]
  Core := fun _ => [ResourceObject.deployment "d1"]

/-- A spec with a single storage class. -/
def specB : AppSpec where
  Key := "b"
  Storage := fun _ => [ResourceObject.storageClass "sc"]
  Core := fun _ => []

/-- A spec whose storage holds an object of an unknown kind next to a PVC. -/
def specMix : AppSpec where
  Key := "mix"
  Storage := fun _ => [ResourceObject.other "mystery",
    ResourceObject.persistentVolumeClaim "p9"]
  Core := fun _ => []

/-- A spec whose storage and core lists each start with an object of an
unknown kind. -/
def specU : AppSpec where
  Key := "u"
  Storage := fun _ => [ResourceObject.other "odd-storage"]
  Core := fun _ => [ResourceObject.other "odd-core"]

/-- Client whose storage-class creation fails. -/
def clC1 : K8sUtils :=
  { clOk with CreateStorageClass := fun _ => Except.error "boom" }

/-- Client whose deployment validation fails. -/
def clValFail : K8sUtils :=
  { clOk with ValidateDeployement := fun _ => Except.error "nope" }

/-- Client whose deployment deletion fails. -/
def clDelFail : K8sUtils :=
  { clOk with DeleteDeployment := fun _ => Except.error "locked" }

/-- Client whose volume lookup fails. -/
def clVolFail : K8sUtils :=
  { clOk with
    GetVolumeForPersistentVolumeClaim := fun _ => Except.error "gone" }

/-- Client whose node listing fails. -/
def clNodesFail : K8sUtils :=
  { clOk with GetNodes := Except.error "conn refused" }

/-- A cluster node item with one internal IP and one hostname address. -/
def itemA : K8sNodeItem where
  Name := "m1"
  Addresses := [{ Type' := NodeAddressType.internalIP, Address := "10.0.0.1" },
    { Type' := NodeAddressType.hostname, Address := "m1.local" }]

/-- Client listing exactly `itemA`, classifying `m1` as a master. -/
def clNodes : K8sUtils :=
  { clOk with
    GetNodes := Except.ok [itemA]
    IsNodeMaster := fun it => it.Name == "m1" }

/-- An empty driver state. -/
def k0 : K8sState where
  nodes := []

/-! Helper lemmas about the storage and core loops of `Schedule`. -/

theorem scheduleStorageObjs_ok (cl : K8sUtils) (app : AppSpec)
    (objs : List ResourceObject) (h : ∀ o ∈ objs, storageCreateOk cl o) :
    scheduleStorageObjs cl app objs = (storageIdealOps objs, none) := by
  induction objs with
  | nil => rfl
  | cons o rest ih =>
    have ho := h o (List.mem_cons_self o rest)
    have hr := ih (fun x hx => h x (List.mem_cons_of_mem _ hx))
    cases o with
    | storageClass n =>
      have hn : cl.CreateStorageClass n = Except.ok () := ho
      simp [scheduleStorageObjs, storageIdealOps, hn, hr]
    | persistentVolumeClaim n =>
      have hn : cl.CreatePersistentVolumeClaim n = Except.ok () := ho
      simp [scheduleStorageObjs, storageIdealOps, hn, hr]
    | deployment n => simp [storageCreateOk] at ho
    | other d => simp [storageCreateOk] at ho

theorem scheduleStorageObjs_le (cl : K8sUtils) (app : AppSpec)
    (objs : List ResourceObject) :
    ∃ t, storageIdealOps objs = (scheduleStorageObjs cl app objs).1 ++ t := by
  induction objs with
  | nil => exact ⟨[], rfl⟩
  | cons o rest ih =>
    cases o with
    | storageClass n =>
      cases hc : cl.CreateStorageClass n with
      | error e =>
        exact ⟨storageIdealOps rest,
          by simp [scheduleStorageObjs, storageIdealOps, hc]⟩
      | ok u =>
        obtain ⟨t, ht⟩ := ih
        exact ⟨t, by simp [scheduleStorageObjs, storageIdealOps, hc, ht]⟩
    | persistentVolumeClaim n =>
      cases hc : cl.CreatePersistentVolumeClaim n with
      | error e =>
        exact ⟨storageIdealOps rest,
          by simp [scheduleStorageObjs, storageIdealOps, hc]⟩
      | ok u =>
        obtain ⟨t, ht⟩ := ih
        exact ⟨t, by simp [scheduleStorageObjs, storageIdealOps, hc, ht]⟩
    | deployment n => exact ⟨[], by simp [scheduleStorageObjs, storageIdealOps]⟩
    | other d => exact ⟨[], by simp [scheduleStorageObjs, storageIdealOps]⟩

theorem scheduleStorageObjs_none (cl : K8sUtils) (app : AppSpec)
    (objs : List ResourceObject)
    (h : (scheduleStorageObjs cl app objs).2 = none) :
    (scheduleStorageObjs cl app objs).1 = storageIdealOps objs := by
  induction objs with
  | nil => rfl
  | cons o rest ih =>
    cases o with
    | storageClass n =>
      cases hc : cl.CreateStorageClass n with
      | error e => simp [scheduleStorageObjs, hc] at h
      | ok u =>
        simp [scheduleStorageObjs, hc] at h ⊢
        simp [storageIdealOps, ih h]
    | persistentVolumeClaim n =>
      cases hc : cl.CreatePersistentVolumeClaim n with
      | error e => simp [scheduleStorageObjs, hc] at h
      | ok u =>
        simp [scheduleStorageObjs, hc] at h ⊢
        simp [storageIdealOps, ih h]
    | deployment n => simp [scheduleStorageObjs] at h
    | other d => simp [scheduleStorageObjs] at h

theorem scheduleStorageObjs_err (cl : K8sUtils) (app : AppSpec)
    (objs : List ResourceObject) (e : SchedError)
    (h : (scheduleStorageObjs cl app objs).2 = some e) :
    ∃ c, e = SchedError.failedToScheduleApp app c := by
  induction objs with
  | nil => simp [scheduleStorageObjs] at h
  | cons o rest ih =>
    cases o with
    | storageClass n =>
      cases hc : cl.CreateStorageClass n with
      | error er =>
        simp [scheduleStorageObjs, hc] at h
        exact ⟨_, h.symm⟩
      | ok u =>
        simp [scheduleStorageObjs, hc] at h
        exact ih h
    | persistentVolumeClaim n =>
      cases hc : cl.CreatePersistentVolumeClaim n with
      | error er =>
        simp [scheduleStorageObjs, hc] at h
        exact ⟨_, h.symm⟩
      | ok u =>
        simp [scheduleStorageObjs, hc] at h
        exact ih h
    | deployment n =>
      simp [scheduleStorageObjs] at h
      exact ⟨_, h.symm⟩
    | other d =>
      simp [scheduleStorageObjs] at h
      exact ⟨_, h.symm⟩

theorem scheduleCoreObjs_ok (cl : K8sUtils) (app : AppSpec)
    (objs : List ResourceObject) (h : ∀ o ∈ objs, coreCreateOk cl o) :
    scheduleCoreObjs cl app objs = (coreIdealOps objs, none) := by
  induction objs with
  | nil => rfl
  | cons o rest ih =>
    have ho := h o (List.mem_cons_self o rest)
    have hr := ih (fun x hx => h x (List.mem_cons_of_mem _ hx))
    cases o with
    | deployment n =>
      have hn : cl.CreateDeployment n = Except.ok () := ho
      simp [scheduleCoreObjs, coreIdealOps, hn, hr]
    | storageClass n => simp [coreCreateOk] at ho
    | persistentVolumeClaim n => simp [coreCreateOk] at ho
    | other d => simp [coreCreateOk] at ho

theorem scheduleCoreObjs_le (cl : K8sUtils) (app : AppSpec)
    (objs : List ResourceObject) :
    ∃ t, coreIdealOps objs = (scheduleCoreObjs cl app objs).1 ++ t := by
  induction objs with
  | nil => exact ⟨[], rfl⟩
  | cons o rest ih =>
    cases o with
    | deployment n =>
      cases hc : cl.CreateDeployment n with
      | error e =>
        exact ⟨coreIdealOps rest, by simp [scheduleCoreObjs, coreIdealOps, hc]⟩
      | ok u =>
        obtain ⟨t, ht⟩ := ih
        exact ⟨t, by simp [scheduleCoreObjs, coreIdealOps, hc, ht]⟩
    | storageClass n => exact ⟨[], by simp [scheduleCoreObjs, coreIdealOps]⟩
    | persistentVolumeClaim n =>
      exact ⟨[], by simp [scheduleCoreObjs, coreIdealOps]⟩
    | other d => exact ⟨[], by simp [scheduleCoreObjs, coreIdealOps]⟩

theorem scheduleCoreObjs_none (cl : K8sUtils) (app : AppSpec)
    (objs : List ResourceObject)
    (h : (scheduleCoreObjs cl app objs).2 = none) :
    (scheduleCoreObjs cl app objs).1 = coreIdealOps objs := by
  induction objs with
  | nil => rfl
  | cons o rest ih =>
    cases o with
    | deployment n =>
      cases hc : cl.CreateDeployment n with
      | error e => simp [scheduleCoreObjs, hc] at h
      | ok u =>
        simp [scheduleCoreObjs, hc] at h ⊢
        simp [coreIdealOps, ih h]
    | storageClass n => simp [scheduleCoreObjs] at h
    | persistentVolumeClaim n => simp [scheduleCoreObjs] at h
    | other d => simp [scheduleCoreObjs] at h

theorem scheduleCoreObjs_err (cl : K8sUtils) (app : AppSpec)
    (objs : List ResourceObject) (e : SchedError)
    (h : (scheduleCoreObjs cl app objs).2 = some e) :
    ∃ c, e = SchedError.failedToScheduleApp app c := by
  induction objs with
  | nil => simp [scheduleCoreObjs] at h
  | cons o rest ih =>
    cases o with
    | deployment n =>
      cases hc : cl.CreateDeployment n with
      | error er =>
        simp [scheduleCoreObjs, hc] at h
        exact ⟨_, h.symm⟩
      | ok u =>
        simp [scheduleCoreObjs, hc] at h
        exact ih h
    | storageClass n =>
      simp [scheduleCoreObjs] at h
      exact ⟨_, h.symm⟩
    | persistentVolumeClaim n =>
      simp [scheduleCoreObjs] at h
      exact ⟨_, h.symm⟩
    | other d =>
      simp [scheduleCoreObjs] at h
      exact ⟨_, h.symm⟩

/-! Helper lemmas about the per-spec step and the spec loop of `Schedule`. -/

theorem scheduleOneSpec_ok (cl : K8sUtils) (instanceID : String)
    (app : AppSpec) (h : specOk cl instanceID app) :
    scheduleOneSpec cl instanceID app = (specIdealOps instanceID app, none) := by
  have hs := scheduleStorageObjs_ok cl app (app.Storage instanceID) h.1
  have hc := scheduleCoreObjs_ok cl app (app.Core instanceID) h.2
  simp [scheduleOneSpec, specIdealOps, hs, hc]

theorem scheduleOneSpec_le (cl : K8sUtils) (instanceID : String)
    (app : AppSpec) :
    ∃ t, specIdealOps instanceID app =
      (scheduleOneSpec cl instanceID app).1 ++ t := by
  obtain ⟨t1, ht1⟩ := scheduleStorageObjs_le cl app (app.Storage instanceID)
  cases hs : (scheduleStorageObjs cl app (app.Storage instanceID)).2 with
  | some e =>
    exact ⟨t1 ++ coreIdealOps (app.Core instanceID),
      by simp [scheduleOneSpec, specIdealOps, hs, ht1]⟩
  | none =>
    have h1 := scheduleStorageObjs_none cl app (app.Storage instanceID) hs
    obtain ⟨t2, ht2⟩ := scheduleCoreObjs_le cl app (app.Core instanceID)
    exact ⟨t2, by simp [scheduleOneSpec, specIdealOps, hs, h1, ht2]⟩

theorem scheduleOneSpec_none (cl : K8sUtils) (instanceID : String)
    (app : AppSpec) (h : (scheduleOneSpec cl instanceID app).2 = none) :
    (scheduleOneSpec cl instanceID app).1 = specIdealOps instanceID app := by
  cases hs : (scheduleStorageObjs cl app (app.Storage instanceID)).2 with
  | some e => simp [scheduleOneSpec, hs] at h
  | none =>
    have h1 := scheduleStorageObjs_none cl app (app.Storage instanceID) hs
    simp [scheduleOneSpec, hs] at h
    have h2 := scheduleCoreObjs_none cl app (app.Core instanceID) h
    simp [scheduleOneSpec, specIdealOps, hs, h1, h2]

theorem scheduleOneSpec_err (cl : K8sUtils) (instanceID : String)
    (app : AppSpec) (e : SchedError)
    (h : (scheduleOneSpec cl instanceID app).2 = some e) :
    ∃ c, e = SchedError.failedToScheduleApp app c := by
  cases hs : (scheduleStorageObjs cl app (app.Storage instanceID)).2 with
  | some e2 =>
    simp [scheduleOneSpec, hs] at h
    exact h ▸ scheduleStorageObjs_err cl app (app.Storage instanceID) e2 hs
  | none =>
    simp [scheduleOneSpec, hs] at h
    exact scheduleCoreObjs_err cl app (app.Core instanceID) e h

theorem scheduleSpecs_ok (cl : K8sUtils) (instanceID : String)
    (specs : List AppSpec) (h : ∀ s ∈ specs, specOk cl instanceID s) :
    scheduleSpecs cl instanceID specs =
      (batchIdealOps instanceID specs,
        specs.map (fun s => { UID := instanceID, App := s }), none) := by
  induction specs with
  | nil => rfl
  | cons app rest ih =>
    have h1 := scheduleOneSpec_ok cl instanceID app
      (h app (List.mem_cons_self app rest))
    have h2 := ih (fun s hs => h s (List.mem_cons_of_mem _ hs))
    simp [scheduleSpecs, batchIdealOps, h1, h2]

theorem scheduleSpecs_le (cl : K8sUtils) (instanceID : String)
    (specs : List AppSpec) :
    ∃ t, batchIdealOps instanceID specs =
      (scheduleSpecs cl instanceID specs).1 ++ t := by
  induction specs with
  | nil => exact ⟨[], rfl⟩
  | cons app rest ih =>
    cases hr : (scheduleOneSpec cl instanceID app).2 with
    | some e =>
      obtain ⟨t1, ht1⟩ := scheduleOneSpec_le cl instanceID app
      exact ⟨t1 ++ batchIdealOps instanceID rest,
        by simp [scheduleSpecs, batchIdealOps, hr, ht1]⟩
    | none =>
      have h1 := scheduleOneSpec_none cl instanceID app hr
      obtain ⟨t2, ht2⟩ := ih
      cases ht : (scheduleSpecs cl instanceID rest).2.2 with
      | some e =>
        exact ⟨t2, by simp [scheduleSpecs, batchIdealOps, hr, ht, h1, ht2]⟩
      | none =>
        exact ⟨t2, by simp [scheduleSpecs, batchIdealOps, hr, ht, h1, ht2]⟩

theorem scheduleSpecs_none (cl : K8sUtils) (instanceID : String)
    (specs : List AppSpec)
    (h : (scheduleSpecs cl instanceID specs).2.2 = none) :
    (scheduleSpecs cl instanceID specs).1 = batchIdealOps instanceID specs := by
  induction specs with
  | nil => rfl
  | cons app rest ih =>
    cases hr : (scheduleOneSpec cl instanceID app).2 with
    | some e => simp [scheduleSpecs, hr] at h
    | none =>
      have h1 := scheduleOneSpec_none cl instanceID app hr
      cases ht : (scheduleSpecs cl instanceID rest).2.2 with
      | some e => simp [scheduleSpecs, hr, ht] at h
      | none =>
        simp [scheduleSpecs, batchIdealOps, hr, ht, h1, ih ht]

theorem scheduleSpecs_err (cl : K8sUtils) (instanceID : String)
    (specs : List AppSpec) (e : SchedError)
    (h : (scheduleSpecs cl instanceID specs).2.2 = some e) :
    (scheduleSpecs cl instanceID specs).2.1 = [] ∧
      ∃ app c, app ∈ specs ∧ e = SchedError.failedToScheduleApp app c := by
  induction specs with
  | nil => simp [scheduleSpecs] at h
  | cons app rest ih =>
    cases hr : (scheduleOneSpec cl instanceID app).2 with
    | some e2 =>
      obtain ⟨c, hc⟩ := scheduleOneSpec_err cl instanceID app e2 hr
      have h2 : (scheduleSpecs cl instanceID (app :: rest)).2.1 = [] := by
        simp [scheduleSpecs, hr]
      have he : e2 = e := by simp [scheduleSpecs, hr] at h; exact h
      exact ⟨h2, app, c, List.mem_cons_self app rest, he ▸ hc⟩
    | none =>
      cases ht : (scheduleSpecs cl instanceID rest).2.2 with
      | some e2 =>
        have he : e2 = e := by simp [scheduleSpecs, hr, ht] at h; exact h
        obtain ⟨hnil, app2, c, hmem, hc⟩ := ih (he ▸ ht)
        have h2 : (scheduleSpecs cl instanceID (app :: rest)).2.1 = [] := by
          simp [scheduleSpecs, hr, ht]
        exact ⟨h2, app2, c, List.mem_cons_of_mem _ hmem, hc⟩
      | none => simp [scheduleSpecs, hr, ht] at h

theorem scheduleSpecs_fail_at (cl : K8sUtils) (instanceID : String)
    (pre : List AppSpec) (failSpec : AppSpec) (post : List AppSpec)
    (hpre : ∀ s ∈ pre, specOk cl instanceID s) (e : SchedError)
    (hfail : (scheduleOneSpec cl instanceID failSpec).2 = some e) :
    scheduleSpecs cl instanceID (pre ++ failSpec :: post) =
      (batchIdealOps instanceID pre ++
        (scheduleOneSpec cl instanceID failSpec).1, [], some e) := by
  induction pre with
  | nil => simp [scheduleSpecs, batchIdealOps, hfail]
  | cons p pre ih =>
    have hp := scheduleOneSpec_ok cl instanceID p
      (hpre p (List.mem_cons_self p pre))
    have hrest := ih (fun s hs => hpre s (List.mem_cons_of_mem _ hs))
    simp [scheduleSpecs, batchIdealOps, hp, hrest]

theorem storageIdealOps_noTeardown (objs : List ResourceObject) :
    ∀ o ∈ storageIdealOps objs, o.isTeardown = false := by
  induction objs with
  | nil => simp [storageIdealOps]
  | cons x rest ih =>
    cases x with
    | storageClass n =>
      intro o ho
      simp [storageIdealOps] at ho
      rcases ho with h | h
      · simp [h, Op.isTeardown]
      · exact ih o h
    | persistentVolumeClaim n =>
      intro o ho
      simp [storageIdealOps] at ho
      rcases ho with h | h
      · simp [h, Op.isTeardown]
      · exact ih o h
    | deployment n => simp [storageIdealOps]
    | other d => simp [storageIdealOps]

theorem coreIdealOps_noTeardown (objs : List ResourceObject) :
    ∀ o ∈ coreIdealOps objs, o.isTeardown = false := by
  induction objs with
  | nil => simp [coreIdealOps]
  | cons x rest ih =>
    cases x with
    | deployment n =>
      intro o ho
      simp [coreIdealOps] at ho
      rcases ho with h | h
      · simp [h, Op.isTeardown]
      · exact ih o h
    | storageClass n => simp [coreIdealOps]
    | persistentVolumeClaim n => simp [coreIdealOps]
    | other d => simp [coreIdealOps]

theorem batchIdealOps_noTeardown (instanceID : String)
    (specs : List AppSpec) :
    ∀ o ∈ batchIdealOps instanceID specs, o.isTeardown = false := by
  induction specs with
  | nil => simp [batchIdealOps]
  | cons app rest ih =>
    intro o ho
    simp [batchIdealOps, specIdealOps] at ho
    rcases ho with h | h | h
    · exact storageIdealOps_noTeardown _ o h
    · exact coreIdealOps_noTeardown _ o h
    · exact ih o h

theorem resolveAppKeys_absent (reg : List (String × AppSpec)) :
    ∀ keys (k : String), k ∈ keys →
      List.find? (fun p => p.1 == k) reg = none →
      ∃ key, key ∈ keys ∧ List.find? (fun p => p.1 == key) reg = none ∧
        resolveAppKeys reg keys = ([], some (SchedError.unknownAppKind key)) := by
  intro keys
  induction keys with
  | nil => intro k hk; simp at hk
  | cons key rest ih =>
    intro k hk habsent
    cases hf : List.find? (fun p => p.1 == key) reg with
    | none =>
      exact ⟨key, List.mem_cons_self key rest, hf,
        by simp [resolveAppKeys, factoryGet, hf]⟩
    | some p =>
      have hkr : k ∈ rest := by
        rcases List.mem_cons.mp hk with h | h
        · subst h; rw [habsent] at hf; exact absurd hf (by simp)
        · exact h
      obtain ⟨key2, hmem, hf2, hres⟩ := ih k hkr habsent
      exact ⟨key2, List.mem_cons_of_mem _ hmem, hf2,
        by simp [resolveAppKeys, factoryGet, hf, hres]⟩

/-! Helper lemmas about the validation, teardown and volume-lookup loops. -/

theorem waitForRunningObjs_ok (cl : K8sUtils) (app : AppSpec)
    (objs : List ResourceObject) (h : ∀ o ∈ objs, validateOk cl o) :
    waitForRunningObjs cl app objs = (validateIdealOps objs, none) := by
  induction objs with
  | nil => rfl
  | cons o rest ih =>
    have ho := h o (List.mem_cons_self o rest)
    have hr := ih (fun x hx => h x (List.mem_cons_of_mem _ hx))
    cases o with
    | deployment n =>
      have hn : cl.ValidateDeployement n = Except.ok () := ho
      simp [waitForRunningObjs, validateIdealOps, hn, hr]
    | storageClass n => simp [validateOk] at ho
    | persistentVolumeClaim n => simp [validateOk] at ho
    | other d => simp [validateOk] at ho

theorem waitForRunningObjs_fail_at (cl : K8sUtils) (app : AppSpec) :
    ∀ (pre : List ResourceObject) (n e : String)
      (post : List ResourceObject),
      (∀ o ∈ pre, validateOk cl o) →
      cl.ValidateDeployement n = Except.error e →
      waitForRunningObjs cl app
          (pre ++ ResourceObject.deployment n :: post) =
        (validateIdealOps pre ++ [Op.validateDeployement n],
          some (SchedError.failedToValidateApp app
            ("Failed to validate Deployment: " ++ n ++ ". Err: " ++ e))) := by
  intro pre
  induction pre with
  | nil =>
    intro n e post _ he
    simp [waitForRunningObjs, validateIdealOps, he]
  | cons p pre ih =>
    intro n e post hpre he
    have hp := hpre p (List.mem_cons_self p pre)
    have hrest := ih n e post (fun o ho => hpre o (List.mem_cons_of_mem _ ho)) he
    cases p with
    | deployment m =>
      have hm : cl.ValidateDeployement m = Except.ok () := hp
      simp [waitForRunningObjs, validateIdealOps, hm, hrest]
    | storageClass m => simp [validateOk] at hp
    | persistentVolumeClaim m => simp [validateOk] at hp
    | other d => simp [validateOk] at hp

theorem destroyObjs_ok (cl : K8sUtils) (app : AppSpec)
    (objs : List ResourceObject) (h : ∀ o ∈ objs, teardownOk cl o) :
    destroyObjs cl app objs = (teardownIdealOps objs, none) := by
  induction objs with
  | nil => rfl
  | cons o rest ih =>
    have ho := h o (List.mem_cons_self o rest)
    have hr := ih (fun x hx => h x (List.mem_cons_of_mem _ hx))
    cases o with
    | deployment n =>
      have hn : cl.DeleteDeployment n = Except.ok () := ho
      simp [destroyObjs, teardownIdealOps, hn, hr]
    | storageClass n => simp [teardownOk] at ho
    | persistentVolumeClaim n => simp [teardownOk] at ho
    | other d => simp [teardownOk] at ho

theorem destroyObjs_fail_at (cl : K8sUtils) (app : AppSpec) :
    ∀ (pre : List ResourceObject) (n e : String)
      (post : List ResourceObject),
      (∀ o ∈ pre, teardownOk cl o) →
      cl.DeleteDeployment n = Except.error e →
      destroyObjs cl app (pre ++ ResourceObject.deployment n :: post) =
        (teardownIdealOps pre ++ [Op.deleteDeployment n],
          some (SchedError.failedToDestroyApp app
            ("Failed to destroy Deployment: " ++ n ++ ". Err: " ++ e))) := by
  intro pre
  induction pre with
  | nil =>
    intro n e post _ he
    simp [destroyObjs, teardownIdealOps, he]
  | cons p pre ih =>
    intro n e post hpre he
    have hp := hpre p (List.mem_cons_self p pre)
    have hrest := ih n e post (fun o ho => hpre o (List.mem_cons_of_mem _ ho)) he
    cases p with
    | deployment m =>
      have hm : cl.DeleteDeployment m = Except.ok () := hp
      simp [destroyObjs, teardownIdealOps, hm, hrest]
    | storageClass m => simp [teardownOk] at hp
    | persistentVolumeClaim m => simp [teardownOk] at hp
    | other d => simp [teardownOk] at hp

theorem getVolumesObjs_ok (cl : K8sUtils) (app : AppSpec)
    (objs : List ResourceObject) (h : ∀ o ∈ objs, pvcLookupOk cl o) :
    getVolumesObjs cl app objs =
      (volumeIdealOps objs, objs.filterMap (volOf cl), none) := by
  induction objs with
  | nil => rfl
  | cons o rest ih =>
    have hr := ih (fun x hx => h x (List.mem_cons_of_mem _ hx))
    cases o with
    | persistentVolumeClaim n =>
      obtain ⟨v, hv⟩ := h _ (List.mem_cons_self _ rest) n rfl
      simp [getVolumesObjs, volumeIdealOps, volOf, hv, hr,
        List.filterMap_cons, Except.toOption]
    | storageClass n =>
      simp [getVolumesObjs, volumeIdealOps, volOf, hr, List.filterMap_cons]
    | deployment n =>
      simp [getVolumesObjs, volumeIdealOps, volOf, hr, List.filterMap_cons]
    | other d =>
      simp [getVolumesObjs, volumeIdealOps, volOf, hr, List.filterMap_cons]

theorem getVolumesObjs_fail_at (cl : K8sUtils) (app : AppSpec) :
    ∀ (pre : List ResourceObject) (n e : String)
      (post : List ResourceObject),
      (∀ o ∈ pre, pvcLookupOk cl o) →
      cl.GetVolumeForPersistentVolumeClaim n = Except.error e →
      getVolumesObjs cl app
          (pre ++ ResourceObject.persistentVolumeClaim n :: post) =
        (volumeIdealOps pre ++ [Op.getVolumeForPersistentVolumeClaim n], [],
          some (SchedError.failedToGetVolumesForApp app
            ("Failed to get volume for PVC: " ++ n ++ ". Err: " ++ e))) := by
  intro pre
  induction pre with
  | nil =>
    intro n e post _ he
    simp [getVolumesObjs, volumeIdealOps, he]
  | cons p pre ih =>
    intro n e post hpre he
    have hrest := ih n e post (fun o ho => hpre o (List.mem_cons_of_mem _ ho)) he
    cases p with
    | persistentVolumeClaim m =>
      obtain ⟨v, hv⟩ := hpre _ (List.mem_cons_self _ pre) m rfl
      simp [getVolumesObjs, volumeIdealOps, hv, hrest]
    | storageClass m => simp [getVolumesObjs, volumeIdealOps, hrest]
    | deployment m => simp [getVolumesObjs, volumeIdealOps, hrest]
    | other d => simp [getVolumesObjs, volumeIdealOps, hrest]

theorem collectAddrs_filter (addrs : List NodeAddress) :
    collectAddrs addrs =
      (addrs.filter (fun a =>
        a.Type' == NodeAddressType.externalIP ||
          a.Type' == NodeAddressType.internalIP)).map NodeAddress.Address := by
  induction addrs with
  | nil => rfl
  | cons a rest ih =>
    by_cases h : a.Type' = NodeAddressType.externalIP ∨
        a.Type' = NodeAddressType.internalIP
    · have hb : (a.Type' == NodeAddressType.externalIP ||
          a.Type' == NodeAddressType.internalIP) = true := by
        simpa [Bool.or_eq_true, beq_iff_eq] using h
      simp [collectAddrs, h, List.filter_cons, hb, ih]
    · have hb : (a.Type' == NodeAddressType.externalIP ||
          a.Type' == NodeAddressType.internalIP) = false := by
        simpa [Bool.or_eq_true, beq_iff_eq] using h
      simp [collectAddrs, h, List.filter_cons, hb, ih]

theorem specIdealOps_noTeardown (instanceID : String) (app : AppSpec) :
    ∀ o ∈ specIdealOps instanceID app, o.isTeardown = false := by
  intro o ho
  simp only [specIdealOps] at ho
  rcases List.mem_append.mp ho with h | h
  · exact storageIdealOps_noTeardown _ o h
  · exact coreIdealOps_noTeardown _ o h

/-! The claims. -/

/-- C3: within one `Schedule` call the issued cluster calls always form an
initial segment of the full-success call sequence of the resolved specs —
in which every storage create of a spec comes strictly before any core
create of the same spec, in the order the spec returns them, and specs
follow the factory's order — and equal that sequence whenever no error
occurs. -/
theorem C3_schedule_ordering (cl : K8sUtils) (reg : List (String × AppSpec))
    (instanceID : String) (options : ScheduleOptions) :
    (∃ t, batchIdealOps instanceID (resolveSpecs reg options).1 =
        (Schedule cl reg instanceID options).1 ++ t) ∧
    ((Schedule cl reg instanceID options).2.2 = none →
      (Schedule cl reg instanceID options).1 =
        batchIdealOps instanceID (resolveSpecs reg options).1) := by
  cases hr : resolveSpecs reg options with
  | mk specs err =>
    cases err with
    | some e =>
      constructor
      · exact ⟨batchIdealOps instanceID specs, by simp [Schedule, hr]⟩
      · intro h
        simp [Schedule, hr] at h
    | none =>
      constructor
      · obtain ⟨t, ht⟩ := scheduleSpecs_le cl instanceID specs
        exact ⟨t, by simp [Schedule, hr, ht]⟩
      · intro h
        simp [Schedule, hr] at h ⊢
        exact scheduleSpecs_none cl instanceID specs h

theorem C3_schedule_ordering_witness :
    (Schedule clOk regW "run-1" { AppKeys := [] }).1 =
      batchIdealOps "run-1" (resolveSpecs regW { AppKeys := [] }).1 :=
  (C3_schedule_ordering clOk regW "run-1" { AppKeys := [] }).2 rfl

/-- C4: when resolution succeeds and every materialization succeeds,
`Schedule` returns exactly one Context per resolved spec, in spec order,
each with UID `instanceID` and App that spec; with empty AppKeys the
resolved specs are all registered specs in registration order. -/
theorem C4_schedule_success (cl : K8sUtils) (reg : List (String × AppSpec))
    (instanceID : String) (options : ScheduleOptions) (specs : List AppSpec)
    (hres : resolveSpecs reg options = (specs, none))
    (h : ∀ s ∈ specs, specOk cl instanceID s) :
    Schedule cl reg instanceID options =
      (batchIdealOps instanceID specs,
        specs.map (fun s => { UID := instanceID, App := s }), none) ∧
    (options.AppKeys = [] → specs = factoryGetAll reg) := by
  constructor
  · simp [Schedule, hres, scheduleSpecs_ok cl instanceID specs h]
  · intro hk
    have h2 : resolveSpecs reg options = (factoryGetAll reg, none) := by
      simp [resolveSpecs, hk]
    rw [hres] at h2
    exact congrArg Prod.fst h2

theorem C4_schedule_success_witness :
    Schedule clOk regW "run-1" { AppKeys := [] } =
      (batchIdealOps "run-1" [specW],
        [{ UID := "run-1", App := specW }], none) ∧
    (({ AppKeys := [] } : ScheduleOptions).AppKeys = [] →
      [specW] = factoryGetAll regW) :=
  C4_schedule_success clOk regW "run-1" { AppKeys := [] } [specW] rfl (by
    intro s hs
    rw [List.mem_singleton] at hs
    subst hs
    constructor
    · intro o ho
      simp [specW] at ho
      rcases ho with h | h <;> subst h <;> rfl
    · intro o ho
      simp [specW] at ho
      subst ho
      rfl)

/-- C9: with nonempty AppKeys containing a key absent from the registry,
`Schedule` fails with the factory's `UnknownAppKind` error for the first
absent key, returns nil Contexts and issues no create call at all. -/
theorem C9_unknown_app_key (cl : K8sUtils) (reg : List (String × AppSpec))
    (instanceID : String) (options : ScheduleOptions) (k : String)
    (hk : k ∈ options.AppKeys)
    (habsent : List.find? (fun p => p.1 == k) reg = none) :
    ∃ key, key ∈ options.AppKeys ∧
      List.find? (fun p => p.1 == key) reg = none ∧
      Schedule cl reg instanceID options =
        ([], [], some (SchedError.unknownAppKind key)) := by
  have hne : options.AppKeys.isEmpty = false := by
    cases hAK : options.AppKeys with
    | nil => rw [hAK] at hk; simp at hk
    | cons a l => rfl
  obtain ⟨key, hmem, hf, hres⟩ :=
    resolveAppKeys_absent reg options.AppKeys k hk habsent
  exact ⟨key, hmem, hf, by simp [Schedule, resolveSpecs, hne, hres]⟩

theorem C9_unknown_app_key_witness :
    ∃ key, key ∈ ["postgres", "mysql"] ∧
      List.find? (fun p => p.1 == key) regW = none ∧
      Schedule clOk regW "run-1" { AppKeys := ["postgres", "mysql"] } =
        ([], [], some (SchedError.unknownAppKind key)) :=
  C9_unknown_app_key clOk regW "run-1" { AppKeys := ["postgres", "mysql"] }
    "mysql" (by simp) rfl

/-- C1 is refuted as stated: with spec "a" (one PVC, one deployment) fully
materialized and spec "b" failing on its storage class, `Schedule` returns
`ErrFailedToScheduleApp` together with an empty (Go `nil`) Context list —
not a list whose length equals the number of fully-succeeded specs, which
here is 1. The trace shows spec "a" did succeed before the failure. -/
theorem C1_counterexample :
    Schedule clC1 [("a", specA), ("b", specB)] "i" { AppKeys := [] } =
      ([Op.createPersistentVolumeClaim "p1", Op.createDeployment "d1",
        Op.createStorageClass "sc"], [],
        some (SchedError.failedToScheduleApp specB
          ("Failed to create storage class: " ++ "sc" ++ ". Err: " ++ "boom"))) ∧
    (Schedule clC1 [("a", specA), ("b", specB)] "i"
      { AppKeys := [] }).2.1.length ≠ 1 :=
  ⟨rfl, by decide⟩

/-- C1 (amended): a `Schedule` that fails while materializing a resource of
the Nth spec returns `FailedToScheduleApp` for that spec together with an
empty (`nil`) Context list — no Contexts are returned, not even for the
fully-succeeded prior specs — while the resources of the prior specs stay
materialized: their create calls were all issued, the failing spec's calls
stop at the failure, and no teardown call is ever issued (no rollback). -/
theorem C1_schedule_partial_failure (cl : K8sUtils)
    (reg : List (String × AppSpec)) (instanceID : String)
    (options : ScheduleOptions) (pre : List AppSpec) (failSpec : AppSpec)
    (post : List AppSpec) (e : SchedError)
    (hres : resolveSpecs reg options = (pre ++ failSpec :: post, none))
    (hpre : ∀ s ∈ pre, specOk cl instanceID s)
    (hfail : (scheduleOneSpec cl instanceID failSpec).2 = some e) :
    (Schedule cl reg instanceID options).2.1 = [] ∧
    (∃ c, (Schedule cl reg instanceID options).2.2 =
        some (SchedError.failedToScheduleApp failSpec c)) ∧
    (Schedule cl reg instanceID options).1 =
      batchIdealOps instanceID pre ++
        (scheduleOneSpec cl instanceID failSpec).1 ∧
    ∀ o ∈ (Schedule cl reg instanceID options).1, o.isTeardown = false := by
  obtain ⟨c, hc⟩ := scheduleOneSpec_err cl instanceID failSpec e hfail
  have hspec := scheduleSpecs_fail_at cl instanceID pre failSpec post hpre e hfail
  have hS : Schedule cl reg instanceID options =
      (batchIdealOps instanceID pre ++
        (scheduleOneSpec cl instanceID failSpec).1, [], some e) := by
    simp [Schedule, hres, hspec]
  have h1 : (Schedule cl reg instanceID options).1 =
      batchIdealOps instanceID pre ++
        (scheduleOneSpec cl instanceID failSpec).1 := by
    rw [hS]
  refine ⟨by rw [hS], ⟨c, by rw [hS]; simp [hc]⟩, h1, ?_⟩
  intro o ho
  rw [h1] at ho
  rcases List.mem_append.mp ho with h | h
  · exact batchIdealOps_noTeardown instanceID pre o h
  · obtain ⟨t, ht⟩ := scheduleOneSpec_le cl instanceID failSpec
    exact specIdealOps_noTeardown instanceID failSpec o
      (ht ▸ List.mem_append_left t h)

theorem C1_schedule_partial_failure_witness :
    (Schedule clC1 [("a", specA), ("b", specB)] "i" { AppKeys := [] }).2.1
        = [] ∧
    (∃ c, (Schedule clC1 [("a", specA), ("b", specB)] "i"
        { AppKeys := [] }).2.2 =
      some (SchedError.failedToScheduleApp specB c)) ∧
    (Schedule clC1 [("a", specA), ("b", specB)] "i" { AppKeys := [] }).1 =
      batchIdealOps "i" [specA] ++ (scheduleOneSpec clC1 "i" specB).1 ∧
    ∀ o ∈ (Schedule clC1 [("a", specA), ("b", specB)] "i"
        { AppKeys := [] }).1, o.isTeardown = false :=
  C1_schedule_partial_failure clC1 [("a", specA), ("b", specB)] "i"
    { AppKeys := [] } [specA] specB [] _ rfl
    (by
      intro s hs
      rw [List.mem_singleton] at hs
      subst hs
      exact ⟨fun o ho => by simp [specA] at ho; subst ho; rfl,
        fun o ho => by simp [specA] at ho; subst ho; rfl⟩)
    rfl

/-- C2 is refuted as stated: the storage list of `specMix` starts with an
object of a kind no operation supports, yet `GetVolumes` silently passes
over it — it issues no call for it, reports no error, and returns the
volume of the following PVC. -/
theorem C2_counterexample :
    GetVolumes clOk { UID := "i", App := specMix } =
      ([Op.getVolumeForPersistentVolumeClaim "p9"], ["vol-p9"], none) := rfl

/-- C2 (amended): `Schedule`, `WaitForRunning`, `Destroy`, `WaitForDestroy`,
`InspectVolumes` and `DeleteVolumes` fail on an object of an unsupported
kind with their operation-specific error carrying the owning AppSpec and a
description of the unmatched object; `GetVolumes` and
`GetVolumeParameters`, however, silently pass over every storage object
that is not a persistent-volume claim. -/
theorem C2_unsupported_kind_dispatch (cl : K8sUtils)
    (reg : List (String × AppSpec)) (instanceID : String)
    (options : ScheduleOptions) (app : AppSpec)
    (sobj cobj : ResourceObject) (srest crest : List ResourceObject)
    (hs : app.Storage instanceID = sobj :: srest)
    (hsu : ¬ storageKindSupported sobj)
    (hc : app.Core instanceID = cobj :: crest)
    (hcu : ¬ coreKindSupported cobj)
    (hres : resolveSpecs reg options = ([app], none)) :
    Schedule cl reg instanceID options =
      ([], [], some (SchedError.failedToScheduleApp app
        ("Failed to create unsupported storage component: "
          ++ sobj.describe ++ "."))) ∧
    WaitForRunning cl { UID := instanceID, App := app } =
      ([], some (SchedError.failedToValidateApp app
        ("Failed to validate unsupported core component: "
          ++ cobj.describe ++ "."))) ∧
    Destroy cl { UID := instanceID, App := app } =
      ([], some (SchedError.failedToDestroyApp app
        ("Failed to destroy unsupported core component: "
          ++ cobj.describe ++ "."))) ∧
    WaitForDestroy cl { UID := instanceID, App := app } =
      ([], some (SchedError.failedToValidateAppDestroy app
        ("Failed to validate destory of unsupported core component: "
          ++ cobj.describe ++ "."))) ∧
    InspectVolumes cl { UID := instanceID, App := app } =
      ([], some (SchedError.failedToValidateStorage app
        ("Failed to validate unsupported storage component: "
          ++ sobj.describe ++ "."))) ∧
    DeleteVolumes cl { UID := instanceID, App := app } =
      ([], some (SchedError.failedToDestroyStorage app
        ("Failed to destroy unsupported storage component: "
          ++ sobj.describe ++ "."))) ∧
    GetVolumes cl { UID := instanceID, App := app } =
      getVolumesObjs cl app srest ∧
    GetVolumeParameters cl { UID := instanceID, App := app } =
      getVolumeParametersObjs cl app srest := by
  cases sobj with
  | storageClass n => exact absurd trivial hsu
  | persistentVolumeClaim n => exact absurd trivial hsu
  | deployment n =>
    cases cobj with
    | deployment m => exact absurd trivial hcu
    | storageClass m =>
      refine ⟨?_, ?_, ?_, ?_, ?_, ?_, ?_, ?_⟩ <;>
        simp [Schedule, hres, scheduleSpecs, scheduleOneSpec,
          scheduleStorageObjs, hs, WaitForRunning, waitForRunningObjs, hc,
          Destroy, destroyObjs, WaitForDestroy, waitForDestroyObjs,
          InspectVolumes, inspectVolumesObjs, DeleteVolumes,
          deleteVolumesObjs, GetVolumes, getVolumesObjs,
          GetVolumeParameters, getVolumeParametersObjs,
          ResourceObject.describe]
    | persistentVolumeClaim m =>
      refine ⟨?_, ?_, ?_, ?_, ?_, ?_, ?_, ?_⟩ <;>
        simp [Schedule, hres, scheduleSpecs, scheduleOneSpec,
          scheduleStorageObjs, hs, WaitForRunning, waitForRunningObjs, hc,
          Destroy, destroyObjs, WaitForDestroy, waitForDestroyObjs,
          InspectVolumes, inspectVolumesObjs, DeleteVolumes,
          deleteVolumesObjs, GetVolumes, getVolumesObjs,
          GetVolumeParameters, getVolumeParametersObjs,
          ResourceObject.describe]
    | other d =>
      refine ⟨?_, ?_, ?_, ?_, ?_, ?_, ?_, ?_⟩ <;>
        simp [Schedule, hres, scheduleSpecs, scheduleOneSpec,
          scheduleStorageObjs, hs, WaitForRunning, waitForRunningObjs, hc,
          Destroy, destroyObjs, WaitForDestroy, waitForDestroyObjs,
          InspectVolumes, inspectVolumesObjs, DeleteVolumes,
          deleteVolumesObjs, GetVolumes, getVolumesObjs,
          GetVolumeParameters, getVolumeParametersObjs,
          ResourceObject.describe]
  | other descr =>
    cases cobj with
    | deployment m => exact absurd trivial hcu
    | storageClass m =>
      refine ⟨?_, ?_, ?_, ?_, ?_, ?_, ?_, ?_⟩ <;>
        simp [Schedule, hres, scheduleSpecs, scheduleOneSpec,
          scheduleStorageObjs, hs, WaitForRunning, waitForRunningObjs, hc,
          Destroy, destroyObjs, WaitForDestroy, waitForDestroyObjs,
          InspectVolumes, inspectVolumesObjs, DeleteVolumes,
          deleteVolumesObjs, GetVolumes, getVolumesObjs,
          GetVolumeParameters, getVolumeParametersObjs,
          ResourceObject.describe]
    | persistentVolumeClaim m =>
      refine ⟨?_, ?_, ?_, ?_, ?_, ?_, ?_, ?_⟩ <;>
        simp [Schedule, hres, scheduleSpecs, scheduleOneSpec,
          scheduleStorageObjs, hs, WaitForRunning, waitForRunningObjs, hc,
          Destroy, destroyObjs, WaitForDestroy, waitForDestroyObjs,
          InspectVolumes, inspectVolumesObjs, DeleteVolumes,
          deleteVolumesObjs, GetVolumes, getVolumesObjs,
          GetVolumeParameters, getVolumeParametersObjs,
          ResourceObject.describe]
    | other d =>
      refine ⟨?_, ?_, ?_, ?_, ?_, ?_, ?_, ?_⟩ <;>
        simp [Schedule, hres, scheduleSpecs, scheduleOneSpec,
          scheduleStorageObjs, hs, WaitForRunning, waitForRunningObjs, hc,
          Destroy, destroyObjs, WaitForDestroy, waitForDestroyObjs,
          InspectVolumes, inspectVolumesObjs, DeleteVolumes,
          deleteVolumesObjs, GetVolumes, getVolumesObjs,
          GetVolumeParameters, getVolumeParametersObjs,
          ResourceObject.describe]

theorem C2_unsupported_kind_dispatch_witness :
    Schedule clOk [("u", specU)] "i" { AppKeys := ["u"] } =
      ([], [], some (SchedError.failedToScheduleApp specU
        ("Failed to create unsupported storage component: "
          ++ (ResourceObject.other "odd-storage").describe ++ "."))) ∧
    WaitForRunning clOk { UID := "i", App := specU } =
      ([], some (SchedError.failedToValidateApp specU
        ("Failed to validate unsupported core component: "
          ++ (ResourceObject.other "odd-core").describe ++ "."))) ∧
    Destroy clOk { UID := "i", App := specU } =
      ([], some (SchedError.failedToDestroyApp specU
        ("Failed to destroy unsupported core component: "
          ++ (ResourceObject.other "odd-core").describe ++ "."))) ∧
    WaitForDestroy clOk { UID := "i", App := specU } =
      ([], some (SchedError.failedToValidateAppDestroy specU
        ("Failed to validate destory of unsupported core component: "
          ++ (ResourceObject.other "odd-core").describe ++ "."))) ∧
    InspectVolumes clOk { UID := "i", App := specU } =
      ([], some (SchedError.failedToValidateStorage specU
        ("Failed to validate unsupported storage component: "
          ++ (ResourceObject.other "odd-storage").describe ++ "."))) ∧
    DeleteVolumes clOk { UID := "i", App := specU } =
      ([], some (SchedError.failedToDestroyStorage specU
        ("Failed to destroy unsupported storage component: "
          ++ (ResourceObject.other "odd-storage").describe ++ "."))) ∧
    GetVolumes clOk { UID := "i", App := specU } =
      getVolumesObjs clOk specU [] ∧
    GetVolumeParameters clOk { UID := "i", App := specU } =
      getVolumeParametersObjs clOk specU [] :=
  C2_unsupported_kind_dispatch clOk [("u", specU)] "i" { AppKeys := ["u"] }
    specU (ResourceObject.other "odd-storage") (ResourceObject.other "odd-core")
    [] [] rfl (fun h => h) rfl (fun h => h) rfl

/-- C5: `WaitForRunning` validates every Core resource of the context's
spec in order (the issued calls are exactly the validations, in list
order, when all succeed, and no error is returned); the first failing
validation aborts the remaining ones and returns `FailedToValidateApp`
carrying the context's App and a cause. -/
theorem C5_wait_for_running (cl : K8sUtils) (ctx : Context) :
    ((∀ o ∈ ctx.App.Core ctx.UID, validateOk cl o) →
      WaitForRunning cl ctx =
        (validateIdealOps (ctx.App.Core ctx.UID), none)) ∧
    (∀ (pre : List ResourceObject) (n e : String)
        (post : List ResourceObject),
      ctx.App.Core ctx.UID = pre ++ ResourceObject.deployment n :: post →
      (∀ o ∈ pre, validateOk cl o) →
      cl.ValidateDeployement n = Except.error e →
      WaitForRunning cl ctx =
        (validateIdealOps pre ++ [Op.validateDeployement n],
          some (SchedError.failedToValidateApp ctx.App
            ("Failed to validate Deployment: " ++ n ++ ". Err: " ++ e)))) := by
  constructor
  · intro h
    simpa [WaitForRunning] using waitForRunningObjs_ok cl ctx.App _ h
  · intro pre n e post hcore hpre he
    have := waitForRunningObjs_fail_at cl ctx.App pre n e post hpre he
    simpa [WaitForRunning, hcore] using this

theorem C5_wait_for_running_witness :
    WaitForRunning clOk { UID := "run-1", App := specW } =
      (validateIdealOps (specW.Core "run-1"), none) ∧
    WaitForRunning clValFail { UID := "run-1", App := specW } =
      (validateIdealOps [] ++ [Op.validateDeployement "depW"],
        some (SchedError.failedToValidateApp specW
          ("Failed to validate Deployment: " ++ "depW" ++ ". Err: "
            ++ "nope"))) :=
  ⟨(C5_wait_for_running clOk { UID := "run-1", App := specW }).1 (by
      intro o ho
      simp [specW] at ho
      subst ho
      rfl),
   (C5_wait_for_running clValFail { UID := "run-1", App := specW }).2
      [] "depW" "nope" [] rfl (by intro o ho; simp at ho) rfl⟩

/-- C6: `Destroy` tears down every Core resource of the context's spec in
order; the first teardown failure returns `FailedToDestroyApp` carrying
the context's App and issues no further teardown call, leaving the
resources after the failing one in place. -/
theorem C6_destroy (cl : K8sUtils) (ctx : Context) :
    ((∀ o ∈ ctx.App.Core ctx.UID, teardownOk cl o) →
      Destroy cl ctx = (teardownIdealOps (ctx.App.Core ctx.UID), none)) ∧
    (∀ (pre : List ResourceObject) (n e : String)
        (post : List ResourceObject),
      ctx.App.Core ctx.UID = pre ++ ResourceObject.deployment n :: post →
      (∀ o ∈ pre, teardownOk cl o) →
      cl.DeleteDeployment n = Except.error e →
      Destroy cl ctx =
        (teardownIdealOps pre ++ [Op.deleteDeployment n],
          some (SchedError.failedToDestroyApp ctx.App
            ("Failed to destroy Deployment: " ++ n ++ ". Err: " ++ e)))) := by
  constructor
  · intro h
    simpa [Destroy] using destroyObjs_ok cl ctx.App _ h
  · intro pre n e post hcore hpre he
    have := destroyObjs_fail_at cl ctx.App pre n e post hpre he
    simpa [Destroy, hcore] using this

theorem C6_destroy_witness :
    Destroy clOk { UID := "run-1", App := specW } =
      (teardownIdealOps (specW.Core "run-1"), none) ∧
    Destroy clDelFail { UID := "run-1", App := specW } =
      (teardownIdealOps [] ++ [Op.deleteDeployment "depW"],
        some (SchedError.failedToDestroyApp specW
          ("Failed to destroy Deployment: " ++ "depW" ++ ". Err: "
            ++ "locked"))) :=
  ⟨(C6_destroy clOk { UID := "run-1", App := specW }).1 (by
      intro o ho
      simp [specW] at ho
      subst ho
      rfl),
   (C6_destroy clDelFail { UID := "run-1", App := specW }).2
      [] "depW" "locked" [] rfl (by intro o ho; simp at ho) rfl⟩

/-- C7: `GetVolumes` resolves the backend volume of each PVC of the
context's spec, returning them in storage order when every lookup
succeeds; a failing lookup aborts with `FailedToGetVolumesForApp`
carrying the context's App and a `nil` volume list (no partial result). -/
theorem C7_get_volumes (cl : K8sUtils) (ctx : Context) :
    ((∀ o ∈ ctx.App.Storage ctx.UID, pvcLookupOk cl o) →
      GetVolumes cl ctx =
        (volumeIdealOps (ctx.App.Storage ctx.UID),
          (ctx.App.Storage ctx.UID).filterMap (volOf cl), none)) ∧
    (∀ (pre : List ResourceObject) (n e : String)
        (post : List ResourceObject),
      ctx.App.Storage ctx.UID =
        pre ++ ResourceObject.persistentVolumeClaim n :: post →
      (∀ o ∈ pre, pvcLookupOk cl o) →
      cl.GetVolumeForPersistentVolumeClaim n = Except.error e →
      GetVolumes cl ctx =
        (volumeIdealOps pre ++ [Op.getVolumeForPersistentVolumeClaim n],
          [], some (SchedError.failedToGetVolumesForApp ctx.App
            ("Failed to get volume for PVC: " ++ n ++ ". Err: " ++ e)))) := by
  constructor
  · intro h
    simpa [GetVolumes] using getVolumesObjs_ok cl ctx.App _ h
  · intro pre n e post hstorage hpre he
    have := getVolumesObjs_fail_at cl ctx.App pre n e post hpre he
    simpa [GetVolumes, hstorage] using this

theorem C7_get_volumes_witness :
    GetVolumes clOk { UID := "run-1", App := specW } =
      (volumeIdealOps (specW.Storage "run-1"),
        (specW.Storage "run-1").filterMap (volOf clOk), none) ∧
    GetVolumes clVolFail { UID := "run-1", App := specW } =
      (volumeIdealOps [ResourceObject.storageClass "scW"] ++
          [Op.getVolumeForPersistentVolumeClaim "pvcW"], [],
        some (SchedError.failedToGetVolumesForApp specW
          ("Failed to get volume for PVC: " ++ "pvcW" ++ ". Err: "
            ++ "gone"))) :=
  ⟨(C7_get_volumes clOk { UID := "run-1", App := specW }).1 (by
      intro o ho
      simp [specW] at ho
      rcases ho with h | h <;> subst h <;> intro m hm
      · cases hm
      · cases hm
        exact ⟨"vol-" ++ "pvcW", rfl⟩),
   (C7_get_volumes clVolFail { UID := "run-1", App := specW }).2
      [ResourceObject.storageClass "scW"] "pvcW" "gone" [] rfl
      (by
        intro o ho
        simp at ho
        subst ho
        intro m hm
        cases hm)
      rfl⟩

/-- C8: when node listing fails, `Init` returns the propagated client
error and leaves the node snapshot untouched; when it succeeds, `Init`
stores one Node per listed item, classified Master/Worker by the
`IsNodeMaster` predicate, and returns no error. -/
theorem C8_init (cl : K8sUtils) (k : K8sState) :
    (∀ e, cl.GetNodes = Except.error e → Init cl k = (k, some e)) ∧
    (∀ items, cl.GetNodes = Except.ok items →
      Init cl k =
          ({ nodes := k.nodes ++ items.map (nodeFromItem cl) }, none) ∧
        ∀ it, (nodeFromItem cl it).Type' =
          if cl.IsNodeMaster it then NodeType.master else NodeType.worker) := by
  constructor
  · intro e he
    simp [Init, he]
  · intro items hi
    exact ⟨by simp [Init, hi], fun it => rfl⟩

theorem C8_init_witness :
    Init clNodesFail k0 = (k0, some "conn refused") ∧
    (Init clNodes k0 =
        ({ nodes := k0.nodes ++ [itemA].map (nodeFromItem clNodes) }, none) ∧
      ∀ it, (nodeFromItem clNodes it).Type' =
        if clNodes.IsNodeMaster it then NodeType.master
        else NodeType.worker) :=
  ⟨(C8_init clNodesFail k0).1 "conn refused" rfl,
   (C8_init clNodes k0).2 [itemA] rfl⟩

/-- C10: every Node produced by `Init` carries exactly the listed node's
addresses of type ExternalIP or InternalIP, in the reported order; every
other address type (such as a hostname) is excluded. -/
theorem C10_init_addresses (cl : K8sUtils) (k : K8sState)
    (items : List K8sNodeItem) (h : cl.GetNodes = Except.ok items) :
    (Init cl k).1.nodes = k.nodes ++ items.map (nodeFromItem cl) ∧
    ∀ it ∈ items, (nodeFromItem cl it).Addresses =
      (it.Addresses.filter (fun a =>
        a.Type' == NodeAddressType.externalIP ||
          a.Type' == NodeAddressType.internalIP)).map NodeAddress.Address := by
  refine ⟨by simp [Init, h], fun it _ => ?_⟩
  simp [nodeFromItem, collectAddrs_filter]

theorem C10_init_addresses_witness :
    (Init clNodes k0).1.nodes = k0.nodes ++ [itemA].map (nodeFromItem clNodes) ∧
    ∀ it ∈ [itemA], (nodeFromItem clNodes it).Addresses =
      (it.Addresses.filter (fun a =>
        a.Type' == NodeAddressType.externalIP ||
          a.Type' == NodeAddressType.internalIP)).map NodeAddress.Address :=
  C10_init_addresses clNodes k0 [itemA] rfl

end Torpedo

